import Mathlib

/-!
# Verification of the rift editor-side client

A shallow embedding of the agent-lifecycle state machine, the inbound
progress-notification routing and the outbound command dispatch of the
rift VS Code extension client, together with proofs of its testable
properties.

The embedding follows the extension source: the `Agent` class and its
`handleProgress` method, the `MorphLanguageClient` with its `agents`
registry (a JS `Map`, modelled as an association list with replace-or-append
insertion), `morph_notify`, `run_agent`, the `rift.cancel` / `rift.accept` /
`rift.reject` command handlers, `provideCodeLenses`, and the chat-callback
slot used by `run_chat`.
-/

namespace Rift

/-- A zero-based text position, as in the editor API. -/
structure Position where
  line : Nat
  character : Nat
  deriving DecidableEq, Repr

/-- A text range between two positions (`end` is a Lean keyword, hence `«end»`). -/
structure Range where
  start : Position
  «end» : Position
  deriving DecidableEq, Repr

/-- Lifecycle status of an agent: `'running' | 'done' | 'error' | 'accepted' | 'rejected'`. -/
inductive AgentStatus
  | running
  | done
  | error
  | accepted
  | rejected
  deriving DecidableEq, Repr

/-- A log entry optionally carried by a progress notification. -/
structure LogEntry where
  severity : String
  message : String
  deriving DecidableEq, Repr

/-- The payload of a `morph/progress` notification (`RunAgentProgress`).
`textDocument` stands for the `TextDocumentIdentifier`, reduced to its uri
string. `status` is a required field of the source interface. -/
structure RunAgentProgress where
  id : Nat
  textDocument : String
  log : Option LogEntry
  cursor : Option Position
  ranges : Option (List Range)
  status : AgentStatus
  deriving DecidableEq, Repr

/-- One agent session: id, anchor position, target document uri, current
status and accumulated highlighted ranges. The source constructor sets
`status = 'running'` and `ranges = []`; the per-agent green decoration type
is modelled through `Editor.greenDecorations`, keyed by agent id. -/
structure Agent where
  id : Nat
  startPosition : Position
  textDocument : String
  status : AgentStatus
  ranges : List Range
  deriving DecidableEq, Repr

/-- The `Agent` constructor from the source: a fresh session is `running`
with no ranges. -/
def Agent.new (id : Nat) (startPosition : Position) (textDocument : String) : Agent :=
  { id := id, startPosition := startPosition, textDocument := textDocument,
    status := AgentStatus.running, ranges := [] }

/-- A visible text editor: its document uri and, per agent id, the ranges
currently decorated with that agent's green decoration type. -/
structure Editor where
  uri : String
  greenDecorations : List (Nat × List Range)
  deriving DecidableEq, Repr

/-- Replace-or-append insertion, the semantics of a JS `Map.set` on an
association list (also used for per-agent decoration entries). -/
def mapSet {α : Type} (m : List (Nat × α)) (k : Nat) (v : α) : List (Nat × α) :=
  if m.any (fun kv => kv.1 = k) then
    m.map (fun kv => if kv.1 = k then (k, v) else kv)
  else
    m ++ [(k, v)]

/-- Lookup, the semantics of a JS `Map.get`. -/
def mapGet {α : Type} (m : List (Nat × α)) (k : Nat) : Option α :=
  (m.find? (fun kv => kv.1 = k)).map (fun kv => kv.2)

/-- `editor.setDecorations(agent.green, rs)`: replace the ranges decorated
with the given agent's decoration type. -/
def setDecorations (e : Editor) (agentId : Nat) (rs : List Range) : Editor :=
  { e with greenDecorations := mapSet e.greenDecorations agentId rs }

/-- Result of `Agent.handleProgress`: the updated agent, the updated visible
editors, and the statuses fired on the agent's status-change emitter. -/
structure HandleProgressResult where
  agent : Agent
  editors : List Editor
  fired : List AgentStatus
  deriving DecidableEq, Repr

/-- `Agent.handleProgress(params)` from the source. The source guards the
status update with `if (params.status)`; `status` is a required enum field
and every enum value is a truthy string, so the guard always passes and only
the inequality test decides whether the status is written and the emitter
fired. Ranges, when present, are assigned wholesale. Then each visible
editor showing `params.textDocument` has this agent's decorations cleared
when the notification's status is accepted/rejected, or replaced by copies
of the notification's ranges when ranges are present. -/
def Agent.handleProgress (a : Agent) (editors : List Editor)
    (params : RunAgentProgress) : HandleProgressResult :=
  let updated :=
    if a.status ≠ params.status then
      ({ a with status := params.status }, [params.status])
    else
      (a, ([] : List AgentStatus))
  let a2 :=
    match params.ranges with
    | some rs => { updated.1 with ranges := rs }
    | none => updated.1
  let editors2 := editors.map (fun e =>
    if e.uri = params.textDocument then
      if params.status = AgentStatus.accepted ∨ params.status = AgentStatus.rejected then
        setDecorations e a.id []
      else
        match params.ranges with
        | some rs =>
            setDecorations e a.id (rs.map (fun r =>
              { start := { line := r.start.line, character := r.start.character },
                «end» := { line := r.«end».line, character := r.«end».character } }))
        | none => e
    else e)
  { agent := a2, editors := editors2, fired := updated.2 }

/-- Connection lifecycle state of the language client
(`State` of the client library). -/
inductive ClientConnState
  | Starting
  | Running
  | Stopped
  deriving DecidableEq, Repr

/-- The client-side state relevant to routing and dispatch: whether the
`client` field is non-null, its connection state, the `agents` registry
(a `Map<number, Agent>`), and the visible editors. -/
structure MorphLanguageClient where
  clientExists : Bool
  clientState : ClientConnState
  agents : List (Nat × Agent)
  editors : List Editor
  deriving DecidableEq, Repr

/-- `is_running()`: the client exists and its state is `Running`. -/
def MorphLanguageClient.is_running (s : MorphLanguageClient) : Bool :=
  s.clientExists && (s.clientState == ClientConnState.Running)

/-- Errors thrown by the inbound progress handler. -/
inductive MorphError
  | clientNotRunning
  | agentNotFound
  deriving DecidableEq, Repr

/-- `morph_notify(params)`, the handler for `morph/progress`: throws when the
client is not running; then looks the id up in the registry and throws
`'agent not found'` when absent; otherwise routes into
`agent.handleProgress`. The pair carries the thrown error (if any) together
with the client state after the call. -/
def MorphLanguageClient.morph_notify (s : MorphLanguageClient)
    (params : RunAgentProgress) : Option MorphError × MorphLanguageClient :=
  if ! s.is_running then
    (some MorphError.clientNotRunning, s)
  else
    match mapGet s.agents params.id with
    | none => (some MorphError.agentNotFound, s)
    | some agent =>
        let r := agent.handleProgress s.editors params
        (none, { s with agents := mapSet s.agents params.id r.agent,
                        editors := r.editors })

/-- Parameters of a `morph/run_agent` request. -/
structure RunAgentParams where
  task : String
  position : Position
  textDocument : String
  deriving DecidableEq, Repr

/-- `run_agent(params)`: throws (`none`) when no client exists; otherwise the
backend answers the request with an id (`backendId` here — the embedding
takes the backend's reply as an argument), a fresh `running` agent anchored
at `params.position` is constructed and `set` into the registry, and the
string `starting agent {id}...` is returned to the caller. The
status-change wiring to the lens emitter carries no registry state and is
not modelled. -/
def MorphLanguageClient.run_agent (s : MorphLanguageClient)
    (params : RunAgentParams) (backendId : Nat) :
    Option (MorphLanguageClient × String) :=
  if ! s.clientExists then
    none
  else
    let agent := Agent.new backendId params.position params.textDocument
    some ({ s with agents := mapSet s.agents backendId agent },
          s!"starting agent {backendId}...")

/-- An outbound fire-and-forget notification to the backend. -/
structure SentNotification where
  method : String
  id : Nat
  deriving DecidableEq, Repr

/-- The `rift.cancel` command: `this.client?.sendNotification('morph/cancel',
{ id })` — optional chaining sends nothing when the client is null; no local
state is touched. -/
def MorphLanguageClient.rift_cancel (s : MorphLanguageClient) (id : Nat) :
    MorphLanguageClient × List SentNotification :=
  (s, if s.clientExists then [{ method := "morph/cancel", id := id }] else [])

/-- The `rift.accept` command, analogous to `rift.cancel`. -/
def MorphLanguageClient.rift_accept (s : MorphLanguageClient) (id : Nat) :
    MorphLanguageClient × List SentNotification :=
  (s, if s.clientExists then [{ method := "morph/accept", id := id }] else [])

/-- The `rift.reject` command, analogous to `rift.cancel`. -/
def MorphLanguageClient.rift_reject (s : MorphLanguageClient) (id : Nat) :
    MorphLanguageClient × List SentNotification :=
  (s, if s.clientExists then [{ method := "morph/reject", id := id }] else [])

/-- An `AgentLens`: the lens line (the anchor line of the agent), the agent
id, and the command it carries (title, command id, tooltip, arguments). -/
structure AgentLens where
  line : Nat
  id : Nat
  title : String
  command : String
  tooltip : String
  arguments : List Nat
  deriving DecidableEq, Repr

/-- The lenses `provideCodeLenses` pushes for one agent of the document:
one `running`/`rift.cancel` lens while running, the `rift.accept` and
`rift.reject` pair when done or errored, nothing otherwise. -/
def lensesForAgent (agent : Agent) : List AgentLens :=
  if agent.status = AgentStatus.running then
    [{ line := agent.startPosition.line, id := agent.id, title := "running",
       command := "rift.cancel", tooltip := "click to stop this agent",
       arguments := [agent.id] }]
  else if agent.status = AgentStatus.done ∨ agent.status = AgentStatus.error then
    [{ line := agent.startPosition.line, id := agent.id, title := "Accept ✅ ",
       command := "rift.accept", tooltip := "Accept the edits below",
       arguments := [agent.id] },
     { line := agent.startPosition.line, id := agent.id, title := " Reject ❌",
       command := "rift.reject",
       tooltip := "Reject the edits below and restore the original text",
       arguments := [agent.id] }]
  else []

/-- `provideCodeLenses(document)`: iterate the registry's values in order,
keep the agents anchored in this document, and push their lenses. -/
def MorphLanguageClient.provideCodeLenses (s : MorphLanguageClient)
    (documentUri : String) : List AgentLens :=
  (((s.agents.map (fun kv => kv.2)).filter
      (fun a => a.textDocument = documentUri)).map lensesForAgent).flatten

/-- The chat callback slot: either the initial field value — an async
function that throws `'no callback set'` — or a caller-supplied callback,
identified abstractly by a tag. -/
inductive ChatCallback
  | defaultThrowing
  | userCallback (k : Nat)
  deriving DecidableEq, Repr

/-- The chat-related state: the `morphNotifyChatCallback` field, and the
handler (if any) registered on the connection for `morph/chat_progress`
via `onNotification`. `onNotification` is only ever called inside
`run_chat`; before that no handler for the method exists. -/
structure ChatState where
  morphNotifyChatCallback : ChatCallback
  registeredChatHandler : Option ChatCallback
  deriving DecidableEq, Repr

/-- At construction, `morphNotifyChatCallback` is the throwing default and
no `morph/chat_progress` handler has been registered on the connection. -/
def initialChatState : ChatState :=
  { morphNotifyChatCallback := ChatCallback.defaultThrowing,
    registeredChatHandler := none }

/-- `run_chat(params, callback)`: assigns `morphNotifyChatCallback :=
callback` and then registers a bound snapshot of that field — i.e. the
just-assigned callback — as the `morph/chat_progress` handler (replacing any
previous one), before issuing the request. -/
def run_chat (cs : ChatState) (cb : Nat) : ChatState :=
  let cs1 := { cs with morphNotifyChatCallback := ChatCallback.userCallback cb }
  { cs1 with registeredChatHandler := some cs1.morphNotifyChatCallback }

/-- Outcome of delivering one `morph/chat_progress` notification. -/
inductive ChatDeliveryResult
  | dropped
  | errorRaised (message : String)
  | delivered (k : Nat)
  deriving DecidableEq, Repr

/-- Delivery of a `morph/chat_progress` notification by the connection: the
client library dispatches a notification to the handler registered for its
method; a notification with no registered handler is logged as unhandled
and discarded — it raises no error into extension code. When a handler is
registered it runs: the throwing default raises `'no callback set'`, a user
callback consumes the payload. -/
def deliverChatProgress (cs : ChatState) : ChatDeliveryResult :=
  match cs.registeredChatHandler with
  | none => ChatDeliveryResult.dropped
  | some ChatCallback.defaultThrowing => ChatDeliveryResult.errorRaised "no callback set"
  | some (ChatCallback.userCallback k) => ChatDeliveryResult.delivered k

/-! ## Sample values used by concrete witnesses and counterexamples -/

/-- The position (3, 0). -/
def pos30 : Position := { line := 3, character := 0 }

/-- The range (3,0)–(5,0). -/
def r35 : Range := { start := { line := 3, character := 0 },
                     «end» := { line := 5, character := 0 } }

/-- A sample progress notification for agent 1 carrying only a status. -/
def progressWith (st : AgentStatus) : RunAgentProgress :=
  { id := 1, textDocument := "file:///a.py", log := none, cursor := none,
    ranges := none, status := st }

/-- A sample agent for document `file:///a.py`, anchored at (3, 0). -/
def agentWith (st : AgentStatus) (rs : List Range) : Agent :=
  { id := 1, startPosition := pos30, textDocument := "file:///a.py",
    status := st, ranges := rs }

/-- A sample visible editor on `file:///a.py` showing agent 1's highlight. -/
def editorA : Editor := { uri := "file:///a.py", greenDecorations := [(1, [r35])] }

/-! ## Helper lemmas about the `Map` model -/

/-- On a list that does contain the key, replacing the key's entry makes
`find?` return the fresh pair. -/
theorem find?_replace_entry {α : Type} (m : List (Nat × α)) (k : Nat) (v : α)
    (h : m.any (fun kv => kv.1 = k) = true) :
    (m.map (fun kv => if kv.1 = k then (k, v) else kv)).find?
        (fun kv => kv.1 = k) = some (k, v) := by
  induction m with
  | nil => simp at h
  | cons hd t ih =>
      by_cases hk : hd.1 = k
      · simp [List.find?, hk]
      · have h' : t.any (fun kv => kv.1 = k) = true := by
          simpa [List.any_cons, hk] using h
        simpa [List.find?, hk] using ih h'

/-- `Map.set` followed by `Map.get` of the same key yields the set value. -/
theorem mapGet_mapSet_self {α : Type} (m : List (Nat × α)) (k : Nat) (v : α) :
    mapGet (mapSet m k v) k = some v := by
  unfold mapGet mapSet
  by_cases h : m.any (fun kv => kv.1 = k) = true
  · simp [h, find?_replace_entry m k v h]
  · have hnone : m.find? (fun kv => kv.1 = k) = none := by
      rw [List.find?_eq_none]
      intro kv hkv
      simp only [List.any_eq_true] at h
      simpa using fun heq => h ⟨kv, hkv, by simpa using heq⟩
    simp [h, List.find?_append, hnone]

/-- `Map.set` preserves distinctness of the keys: replacing keeps the key
list unchanged, appending adds a key that was absent. -/
theorem mapSet_keys_nodup {α : Type} (m : List (Nat × α)) (k : Nat) (v : α)
    (h : (m.map Prod.fst).Nodup) : ((mapSet m k v).map Prod.fst).Nodup := by
  unfold mapSet
  by_cases hc : m.any (fun kv => kv.1 = k) = true
  · have hkeys : (m.map (fun kv => if kv.1 = k then (k, v) else kv)).map Prod.fst
        = m.map Prod.fst := by
      simp only [List.map_map]
      apply List.map_congr_left
      intro kv _
      by_cases hk : kv.1 = k <;> simp [hk]
    simpa [hc, hkeys]
  · have hnk : k ∉ m.map Prod.fst := by
      intro hmem
      rcases List.mem_map.mp hmem with ⟨kv, hkv, hfst⟩
      simp only [List.any_eq_true] at hc
      exact hc ⟨kv, hkv, by simpa using hfst⟩
    rw [if_neg hc, List.map_append]
    simpa [List.nodup_append] using ⟨h, by simpa [List.disjoint_singleton] using hnk⟩

/-! ## Claim theorems -/

/-- C1 counterexample: a session whose status already reached `accepted`
does have its status changed by a later progress notification carrying
`running` — `handleProgress` has no terminal-state guard. -/
theorem late_notification_changes_terminal_status :
    (Agent.handleProgress (agentWith AgentStatus.accepted [])
        [] (progressWith AgentStatus.running)).agent.status
      ≠ AgentStatus.accepted := by decide

/-- C1 (amended): once status has reached `accepted` or `rejected`, a later
progress notification still overwrites it with the notification's status:
the update is a no-op exactly when the carried status equals the current
one, and a different carried status does change the terminal status. -/
theorem handleProgress_terminal_status_follows_params (a : Agent)
    (eds : List Editor) (p : RunAgentProgress)
    (_h : a.status = AgentStatus.accepted ∨ a.status = AgentStatus.rejected) :
    (a.handleProgress eds p).agent.status = p.status := by
  by_cases hst : a.status = p.status <;>
    cases hr : p.ranges <;>
      simp [Agent.handleProgress, hst, hr]

/-- C1 witness: the amended theorem applied to an `accepted` session
receiving a `running` notification. -/
theorem handleProgress_terminal_status_follows_params_witness :
    (Agent.handleProgress (agentWith AgentStatus.accepted [])
        [] (progressWith AgentStatus.running)).agent.status
      = AgentStatus.running :=
  handleProgress_terminal_status_follows_params
    (agentWith AgentStatus.accepted []) [] (progressWith AgentStatus.running)
    (Or.inl rfl)

/-- C2 counterexample: after a progress notification carrying status
`accepted` (and no ranges), the session's accumulated `ranges` field is not
empty — only the editors' decorations are cleared, the field keeps its
previous value. -/
theorem accepted_notification_keeps_session_ranges :
    (Agent.handleProgress (agentWith AgentStatus.done [r35])
        [editorA] (progressWith AgentStatus.accepted)).agent.ranges
      ≠ [] := by decide

/-- C2 (amended): handling a notification whose status is `accepted` or
`rejected` clears this agent's decorations in every visible editor showing
the notification's document (the presentation highlighting), while the
session's stored `ranges` field is not cleared: it keeps its previous value,
or is replaced when the notification carries ranges. -/
theorem handleProgress_accept_clears_decorations_only (a : Agent)
    (eds : List Editor) (p : RunAgentProgress)
    (h : p.status = AgentStatus.accepted ∨ p.status = AgentStatus.rejected) :
    (a.handleProgress eds p).editors
        = eds.map (fun e =>
            if e.uri = p.textDocument then setDecorations e a.id [] else e)
      ∧ (a.handleProgress eds p).agent.ranges = p.ranges.getD a.ranges := by
  constructor
  · rcases h with h | h <;> simp [Agent.handleProgress, h]
  · cases hr : p.ranges <;>
      by_cases hst : a.status = p.status <;>
        simp [Agent.handleProgress, hr, hst]

/-- C2 witness: the amended theorem applied to a `done` session with one
highlighted range and one visible editor, receiving `accepted`. -/
theorem handleProgress_accept_clears_decorations_only_witness :
    ((Agent.handleProgress (agentWith AgentStatus.done [r35])
        [editorA] (progressWith AgentStatus.accepted)).editors
      = [editorA].map (fun e =>
          if e.uri = (progressWith AgentStatus.accepted).textDocument then
            setDecorations e (agentWith AgentStatus.done [r35]).id []
          else e))
    ∧ (Agent.handleProgress (agentWith AgentStatus.done [r35])
        [editorA] (progressWith AgentStatus.accepted)).agent.ranges
      = (progressWith AgentStatus.accepted).ranges.getD
          (agentWith AgentStatus.done [r35]).ranges :=
  handleProgress_accept_clears_decorations_only
    (agentWith AgentStatus.done [r35]) [editorA]
    (progressWith AgentStatus.accepted) (Or.inl rfl)

/-- C4: a progress notification that carries a `ranges` field replaces the
session's highlighted ranges wholesale: afterwards they equal exactly the
carried ranges, whatever the previous set was. -/
theorem handleProgress_ranges_replace (a : Agent) (eds : List Editor)
    (p : RunAgentProgress) (rs : List Range) (h : p.ranges = some rs) :
    (a.handleProgress eds p).agent.ranges = rs := by
  by_cases hst : a.status = p.status <;>
    simp [Agent.handleProgress, h, hst]

/-- C4 witness: a session already holding a range receives a notification
carrying a different singleton range set; the new set replaces the old. -/
theorem handleProgress_ranges_replace_witness :
    (Agent.handleProgress (agentWith AgentStatus.running [r35]) []
        { id := 1, textDocument := "file:///a.py", log := none, cursor := none,
          ranges := some [{ start := pos30, «end» := pos30 }],
          status := AgentStatus.running }).agent.ranges
      = [{ start := pos30, «end» := pos30 }] :=
  handleProgress_ranges_replace (agentWith AgentStatus.running [r35]) []
    { id := 1, textDocument := "file:///a.py", log := none, cursor := none,
      ranges := some [{ start := pos30, «end» := pos30 }],
      status := AgentStatus.running }
    [{ start := pos30, «end» := pos30 }] rfl

/-- C6: the session's status-change emitter fires exactly once per handled
notification whose status differs from the current one, and zero times when
the carried status equals the current status. -/
theorem handleProgress_fires_iff_status_changed (a : Agent) (eds : List Editor)
    (p : RunAgentProgress) :
    (a.handleProgress eds p).fired
        = (if a.status = p.status then [] else [p.status])
      ∧ (a.handleProgress eds p).fired.length
        = (if a.status = p.status then 0 else 1) := by
  by_cases hst : a.status = p.status <;>
    cases hr : p.ranges <;>
      simp [Agent.handleProgress, hst, hr]

/-- C3: while the client is running, a progress notification whose id is
not a key of the registry makes `morph_notify` throw the routing error
`'agent not found'`, and the entire client state — in particular the
registry — is returned unchanged: no entry is created for that id. -/
theorem morph_notify_unknown_id_routing_error (s : MorphLanguageClient)
    (p : RunAgentProgress) (h1 : s.is_running = true)
    (h2 : mapGet s.agents p.id = none) :
    s.morph_notify p = (some MorphError.agentNotFound, s) := by
  simp [MorphLanguageClient.morph_notify, h1, h2]

/-- C3 witness: a running client with an empty registry receiving a
notification for agent 1. -/
theorem morph_notify_unknown_id_routing_error_witness :
    MorphLanguageClient.morph_notify
        { clientExists := true, clientState := ClientConnState.Running,
          agents := [], editors := [] }
        (progressWith AgentStatus.running)
      = (some MorphError.agentNotFound,
         { clientExists := true, clientState := ClientConnState.Running,
           agents := [], editors := [] }) :=
  morph_notify_unknown_id_routing_error
    { clientExists := true, clientState := ClientConnState.Running,
      agents := [], editors := [] }
    (progressWith AgentStatus.running) rfl rfl

/-- C10: when the client exists but its connection is not in the `Running`
state, `morph_notify` throws the not-running error for every notification —
whatever the registry holds, so before any registry lookup can matter — and
returns the client state unchanged: no registry entry, status or ranges is
mutated. -/
theorem morph_notify_not_running_error (s : MorphLanguageClient)
    (p : RunAgentProgress) (h1 : s.clientExists = true)
    (h2 : s.clientState ≠ ClientConnState.Running) :
    s.morph_notify p = (some MorphError.clientNotRunning, s) := by
  have hrun : s.is_running = false := by
    simp [MorphLanguageClient.is_running, h1, h2]
  simp [MorphLanguageClient.morph_notify, hrun]

/-- C10 witness: a stopped client whose registry does contain the
notification's id still answers with the not-running error, untouched. -/
theorem morph_notify_not_running_error_witness :
    MorphLanguageClient.morph_notify
        { clientExists := true, clientState := ClientConnState.Stopped,
          agents := [(1, agentWith AgentStatus.running [])], editors := [] }
        (progressWith AgentStatus.done)
      = (some MorphError.clientNotRunning,
         { clientExists := true, clientState := ClientConnState.Stopped,
           agents := [(1, agentWith AgentStatus.running [])], editors := [] }) :=
  morph_notify_not_running_error
    { clientExists := true, clientState := ClientConnState.Stopped,
      agents := [(1, agentWith AgentStatus.running [])], editors := [] }
    (progressWith AgentStatus.done) rfl (by decide)

/-- C5 counterexample: the caller-visible result of `run_agent` is the
progress message `starting agent 1...`, not the id returned by the backend
(not even its decimal rendering). -/
theorem run_agent_result_is_message_not_id :
    (MorphLanguageClient.run_agent
        { clientExists := true, clientState := ClientConnState.Running,
          agents := [], editors := [] }
        { task := "fix bug", position := pos30, textDocument := "file:///a.py" }
        1).map Prod.snd
      = some "starting agent 1..."
    ∧ "starting agent 1..." ≠ toString (1 : Nat) := by
  constructor
  · rfl
  · decide

/-- C5 (amended): every successful `run_agent` call inserts a fresh agent
under the backend-returned id — initial status `running`, anchored at the
call's position, empty ranges — the registry's keys stay pairwise distinct,
and the caller-visible result is the string `starting agent {id}...`, which
embeds the id rather than being the id itself. -/
theorem run_agent_registers_running_agent (s : MorphLanguageClient)
    (params : RunAgentParams) (backendId : Nat)
    (hc : s.clientExists = true)
    (hnd : (s.agents.map Prod.fst).Nodup) :
    ∃ s2, s.run_agent params backendId
        = some (s2, s!"starting agent {backendId}...")
      ∧ mapGet s2.agents backendId
          = some (Agent.new backendId params.position params.textDocument)
      ∧ (Agent.new backendId params.position params.textDocument).status
          = AgentStatus.running
      ∧ (Agent.new backendId params.position params.textDocument).startPosition
          = params.position
      ∧ (s2.agents.map Prod.fst).Nodup := by
  refine ⟨{ s with agents := mapSet s.agents backendId (Agent.new backendId params.position params.textDocument) }, ?_, mapGet_mapSet_self _ _ _, rfl, rfl, mapSet_keys_nodup _ _ _ hnd⟩
  simp [MorphLanguageClient.run_agent, hc]

/-- C5 witness: the amended theorem applied to a running client with an
empty registry and backend id 1. -/
theorem run_agent_registers_running_agent_witness :
    ∃ s2, MorphLanguageClient.run_agent
        { clientExists := true, clientState := ClientConnState.Running,
          agents := [], editors := [] }
        { task := "fix bug", position := pos30, textDocument := "file:///a.py" }
        1
        = some (s2, "starting agent 1...")
      ∧ mapGet s2.agents 1 = some (Agent.new 1 pos30 "file:///a.py")
      ∧ (Agent.new 1 pos30 "file:///a.py").status = AgentStatus.running
      ∧ (Agent.new 1 pos30 "file:///a.py").startPosition = pos30
      ∧ (s2.agents.map Prod.fst).Nodup :=
  run_agent_registers_running_agent
    { clientExists := true, clientState := ClientConnState.Running,
      agents := [], editors := [] }
    { task := "fix bug", position := pos30, textDocument := "file:///a.py" }
    1 rfl (by simp)

/-- C8: for any document and any registry holding an agent anchored in it,
`provideCodeLenses` computes that agent's action set, which is exactly one
`rift.cancel` lens titled `running` while the agent runs, and exactly the
`rift.accept` / `rift.reject` pair when it is done or errored. -/
theorem provideCodeLenses_agent_actions (ce : Bool) (cs : ClientConnState)
    (eds : List Editor) (n : Nat) (a : Agent) (d : String)
    (hdoc : a.textDocument = d) :
    (MorphLanguageClient.mk ce cs [(n, a)] eds).provideCodeLenses d
        = lensesForAgent a
    ∧ (a.status = AgentStatus.running →
        lensesForAgent a
          = [{ line := a.startPosition.line, id := a.id, title := "running",
               command := "rift.cancel", tooltip := "click to stop this agent",
               arguments := [a.id] }])
    ∧ (a.status = AgentStatus.done ∨ a.status = AgentStatus.error →
        lensesForAgent a
          = [{ line := a.startPosition.line, id := a.id, title := "Accept ✅ ",
               command := "rift.accept", tooltip := "Accept the edits below",
               arguments := [a.id] },
             { line := a.startPosition.line, id := a.id, title := " Reject ❌",
               command := "rift.reject",
               tooltip := "Reject the edits below and restore the original text",
               arguments := [a.id] }]) := by
  refine ⟨?_, ?_, ?_⟩
  · simp [MorphLanguageClient.provideCodeLenses, hdoc]
  · intro h
    simp [lensesForAgent, h]
  · intro h
    rcases h with h | h <;> simp [lensesForAgent, h]

/-- C8 witness: a registry holding one running agent on `file:///a.py`
yields exactly the cancel lens for that document. -/
theorem provideCodeLenses_agent_actions_witness :
    (MorphLanguageClient.mk true ClientConnState.Running
        [(1, agentWith AgentStatus.running [])] []).provideCodeLenses
        "file:///a.py"
        = lensesForAgent (agentWith AgentStatus.running [])
    ∧ ((agentWith AgentStatus.running []).status = AgentStatus.running →
        lensesForAgent (agentWith AgentStatus.running [])
          = [{ line := (agentWith AgentStatus.running []).startPosition.line,
               id := (agentWith AgentStatus.running []).id, title := "running",
               command := "rift.cancel", tooltip := "click to stop this agent",
               arguments := [(agentWith AgentStatus.running []).id] }])
    ∧ ((agentWith AgentStatus.running []).status = AgentStatus.done
        ∨ (agentWith AgentStatus.running []).status = AgentStatus.error →
        lensesForAgent (agentWith AgentStatus.running [])
          = [{ line := (agentWith AgentStatus.running []).startPosition.line,
               id := (agentWith AgentStatus.running []).id, title := "Accept ✅ ",
               command := "rift.accept", tooltip := "Accept the edits below",
               arguments := [(agentWith AgentStatus.running []).id] },
             { line := (agentWith AgentStatus.running []).startPosition.line,
               id := (agentWith AgentStatus.running []).id, title := " Reject ❌",
               command := "rift.reject",
               tooltip := "Reject the edits below and restore the original text",
               arguments := [(agentWith AgentStatus.running []).id] }]) :=
  provideCodeLenses_agent_actions true ClientConnState.Running [] 1
    (agentWith AgentStatus.running []) "file:///a.py" rfl

/-- C9: the `rift.cancel`, `rift.accept` and `rift.reject` commands leave
the whole client state — registry, every session's status and ranges —
unchanged, and their only effect is the single fire-and-forget notification
(`morph/cancel` / `morph/accept` / `morph/reject` with the id), sent exactly
when the client exists. -/
theorem commands_do_not_mutate_state (s : MorphLanguageClient) (id : Nat) :
    (s.rift_cancel id).1 = s
    ∧ (s.rift_accept id).1 = s
    ∧ (s.rift_reject id).1 = s
    ∧ (s.rift_cancel id).1.agents = s.agents
    ∧ (s.rift_cancel id).2
        = (if s.clientExists then [{ method := "morph/cancel", id := id }] else [])
    ∧ (s.rift_accept id).2
        = (if s.clientExists then [{ method := "morph/accept", id := id }] else [])
    ∧ (s.rift_reject id).2
        = (if s.clientExists then [{ method := "morph/reject", id := id }] else []) :=
  ⟨rfl, rfl, rfl, rfl, rfl, rfl, rfl⟩

/-- C7 (code bug): a `morph/chat_progress` notification arriving before any
`run_chat` call finds no registered handler, so the connection drops it —
no error is surfaced; and `run_chat` always registers the just-supplied
user callback, never the throwing `'no callback set'` default, which is
therefore unreachable through notification dispatch. -/
theorem chat_progress_before_run_chat_dropped :
    deliverChatProgress initialChatState = ChatDeliveryResult.dropped
    ∧ (∀ m : String,
        deliverChatProgress initialChatState ≠ ChatDeliveryResult.errorRaised m)
    ∧ (∀ cs : ChatState, ∀ cb : Nat,
        (run_chat cs cb).registeredChatHandler
          = some (ChatCallback.userCallback cb)) := by
  refine ⟨rfl, ?_, ?_⟩
  · intro m hm
    simp [deliverChatProgress, initialChatState] at hm
  · intro cs cb
    rfl

end Rift
